import Mathlib

/-!
Verification of the report/rendering engine of `gerrymander/reports.py`.

The Python source is shallowly embedded: each Lean definition mirrors one
Python function or class from the source.  Python's dynamically typed cell
values are modelled by the inductive type `PyVal` (covering the `None`,
`str` and `int` values the report columns produce); Python code that can
raise is modelled with `Except String`; Python's stable `list.sort` is
modelled by `List.mergeSort`, which is stable and sorts by the same
boolean relation.
-/

namespace Gerrymander

/-- A dynamically typed Python cell value, as produced by the column
`mapfunc`/`sortfunc` callbacks in `reports.py`: `None`, a string, or an
integer. -/
inductive PyVal where
  | vnone : PyVal
  | vstr : String → PyVal
  | vint : Int → PyVal
deriving DecidableEq, Repr

/-- Python `str(val)` on the values of `PyVal`. -/
def pyStr : PyVal → String
  | .vnone => "None"
  | .vstr s => s
  | .vint n => toString n

/-- Rank used to order values of distinct runtime types.  Python 3 raises
`TypeError` when ordering an `int` against a `str` or `None`; the report
columns only ever sort homogeneous keys, so heterogeneous comparisons are
outside the behaviour exercised by the source.  We complete the order by
constructor rank so that the sort relation is total; all sorting theorems
below are stated for homogeneous keys, where `pyLe` coincides with the
Python comparison. -/
def PyVal.rank : PyVal → Nat
  | .vnone => 0
  | .vint _ => 1
  | .vstr _ => 2

/-- Boolean comparison on cell values: `int`s by integer order and `str`s
by lexicographic order, matching Python; values of distinct runtime types
by `PyVal.rank` (see there). -/
def pyLe (a b : PyVal) : Bool :=
  match a, b with
  | .vint x, .vint y => decide (x ≤ y)
  | .vstr x, .vstr y => decide (x ≤ y)
  | x, y => decide (x.rank ≤ y.rank)

/-- `ReportOutputColumn.__init__` from `reports.py`.  The `mapfunc` and
`sortfunc` callbacks receive `(report, key, row)` in the source; the
`report` argument only threads the output object (used by some callbacks
for terminal-colour settings, which the spec excludes from the core), so
the embedding passes `(key, row)`.  The `format` template (a Python
`%`-format string) is modelled by the function `PyVal → String` it
denotes. -/
structure ReportOutputColumn (Row : Type) where
  key : String
  label : String
  mapfunc : String → Row → PyVal
  sortfunc : Option (String → Row → PyVal)
  format : Option (PyVal → String)
  truncate : Nat
  align : String
  visible : Bool

namespace ReportOutputColumn

/-- `ReportOutputColumn.get_value`: apply `mapfunc`; if a `format`
template is set apply it, else replace `None` by the empty string; coerce
to `str`; then, when `truncate` is non-zero (Python truthiness) and the
value is longer, keep the first `truncate` characters and append `"..."`.
By construction the result is always a string. -/
def get_value {Row : Type} (col : ReportOutputColumn Row) (row : Row) : String :=
  let val := col.mapfunc col.key row
  let s :=
    match col.format with
    | some f => f val
    | none =>
      match val with
      | .vnone => ""
      | v => pyStr v
  if col.truncate ≠ 0 ∧ col.truncate < s.length then
    s.take col.truncate ++ "..."
  else
    s

/-- `ReportOutputColumn.get_sort_value`: the `sortfunc` when present
(a function object is truthy in Python), else the raw `mapfunc` value. -/
def get_sort_value {Row : Type} (col : ReportOutputColumn Row) (row : Row) : PyVal :=
  match col.sortfunc with
  | some f => f col.key row
  | none => col.mapfunc col.key row

end ReportOutputColumn

/-- Modelled from the spec: `gerrymander.format.format_delta` is not under
`src/`; the spec describes the aggregation helpers as returning the
selected/averaged age (a duration in seconds), so the missing presentation
helper is modelled as the identity on that duration. -/
def format_delta (secs : Nat) : Nat := secs

/-- `ReportOpenReviewStats.median_age`: `0` for an empty bucket, else
collect `ages[change]` for each change in the bucket, sort ascending
(Python's stable `list.sort`), and return the element at index
`int(len/2)` (floor division), passed through `format_delta`. -/
def median_age {α : Type} (changes : List α) (ages : α → Nat) : Nat :=
  if changes.length = 0 then 0
  else
    let wantages := (changes.map ages).mergeSort (fun a b => decide (a ≤ b))
    format_delta (wantages.getD (wantages.length / 2) 0)

/-- The per-reviewer vote counters built by
`ReportPatchReviewStats.generate`: the dict
`{'flag-m2': _, 'flag-m1': _, 'flag-p1': _, 'flag-p2': _}`. -/
structure ReviewVotes where
  flagM2 : Nat
  flagM1 : Nat
  flagP1 : Nat
  flagP2 : Nat
deriving DecidableEq, Repr

/-- The per-reviewer record `{'votes': ..., 'total': ...}` from
`ReportPatchReviewStats.generate`. -/
structure ReviewerStats where
  votes : ReviewVotes
  total : Nat
deriving DecidableEq, Repr

/-- `ReportPatchReviewStats.ratio_mapfunc` on a table row
`[user, stats, team]`: `plus = flag-p2 + flag-p1`, `minus = flag-m2 +
flag-m1`, result `plus / (plus + minus) * 100` computed in Python floats.
Float division is modelled exactly on `ℚ`; Python raises
`ZeroDivisionError` when the divisor is `0.0`, which is the `.error`
branch — the source has no guard for a zero denominator. -/
def ratio_mapfunc (row : String × ReviewerStats × String) : Except String ℚ :=
  let plus : ℚ := (row.2.1.votes.flagP2 : ℚ) + (row.2.1.votes.flagP1 : ℚ)
  let minus : ℚ := (row.2.1.votes.flagM2 : ℚ) + (row.2.1.votes.flagM1 : ℚ)
  if plus + minus = 0 then
    Except.error "ZeroDivisionError"
  else
    Except.ok (plus / (plus + minus) * 100)

/-- A node of the structured document tree built by the `to_xml` methods
(`xml.dom.minidom` elements and text nodes, keeping only tag names,
child order and text content). -/
inductive XmlNode where
  | elem : String → List XmlNode → XmlNode
  | text : String → XmlNode

/-- A node of the nested mapping built by the `to_json` methods.  Python
dicts preserve insertion order, so objects are ordered association
lists. -/
inductive Json where
  | jstr : String → Json
  | jarr : List Json → Json
  | jobj : List (String × Json) → Json

/-- `ReportOutputTable.__init__` plus its row/column state: the column
list, the rows in insertion order (`add_row` appends), the sort column
key (`None` possible in Python, hence `Option`), the `reverse` flag, the
optional row `limit` and the optional `title`. -/
structure ReportOutputTable (Row : Type) where
  columns : List (ReportOutputColumn Row)
  rows : List Row
  sortcol : Option String
  reverse : Bool
  limit : Option Nat
  title : Option String

namespace ReportOutputTable

/-- The column-resolution loop at the top of
`ReportOutputTable.sort_rows`: scan all columns, remembering the last one
whose `key` equals `sortcol` (the loop has no `break`). -/
def find_sortcol {Row : Type} (t : ReportOutputTable Row) :
    Option (ReportOutputColumn Row) :=
  t.columns.foldl (fun acc col => if some col.key = t.sortcol then some col else acc) none

/-- The boolean relation used by `self.rows.sort(key=..., reverse=...)`:
compare the rows' sort values with `pyLe`, with the operands swapped when
`reverse` is set (Python's stable descending sort). -/
def rowRel {Row : Type} (col : ReportOutputColumn Row) (rev : Bool) :
    Row → Row → Bool :=
  fun a b =>
    if rev then pyLe (col.get_sort_value b) (col.get_sort_value a)
    else pyLe (col.get_sort_value a) (col.get_sort_value b)

/-- `ReportOutputTable.sort_rows`: when a column with key `sortcol`
exists, stable-sort the rows in place by its sort value (descending iff
`reverse`); otherwise leave the rows untouched.  Python's `list.sort` is
a stable sort, modelled by the stable `List.mergeSort`. -/
def sort_rows {Row : Type} (t : ReportOutputTable Row) : ReportOutputTable Row :=
  match t.find_sortcol with
  | none => t
  | some col => { t with rows := t.rows.mergeSort (rowRel col t.reverse) }

/-- The slice `rows[0:limit]` applied by each renderer when
`self.limit is not None`. -/
def applyLimit {Row : Type} (limit : Option Nat) (rows : List Row) : List Row :=
  match limit with
  | none => rows
  | some n => rows.take n

/-- `ReportOutputTable.to_xml`: sort the rows, then build the `table`
element appended to the root — optional `title` element, a `headers`
element with one child per visible column (tag = key, text = label), and
a `content` element with one `row` element per (limited) row, each
holding one child per visible column with the `get_value` text. -/
def to_xml {Row : Type} (t : ReportOutputTable Row) : XmlNode :=
  let st := t.sort_rows
  let headers := XmlNode.elem "headers"
    ((st.columns.filter (fun c => c.visible)).map
      (fun c => XmlNode.elem c.key [XmlNode.text c.label]))
  let content := XmlNode.elem "content"
    ((applyLimit st.limit st.rows).map
      (fun row => XmlNode.elem "row"
        ((st.columns.filter (fun c => c.visible)).map
          (fun c => XmlNode.elem c.key [XmlNode.text (c.get_value row)]))))
  XmlNode.elem "table"
    ((match st.title with
      | some ti => [XmlNode.elem "title" [XmlNode.text ti]]
      | none => []) ++ [headers, content])

/-- `ReportOutputTable.to_json`: sort the rows, then build the node
appended to the root list — `{"table": {"headers": {key: label, ...},
"content": [{key: value, ...}, ...], "title"?: ...}}`, dict keys in
visible-column order, `title` inserted last when present. -/
def to_json {Row : Type} (t : ReportOutputTable Row) : Json :=
  let st := t.sort_rows
  let headers := Json.jobj
    ((st.columns.filter (fun c => c.visible)).map
      (fun c => (c.key, Json.jstr c.label)))
  let content := Json.jarr
    ((applyLimit st.limit st.rows).map
      (fun row => Json.jobj
        ((st.columns.filter (fun c => c.visible)).map
          (fun c => (c.key, Json.jstr (c.get_value row))))))
  Json.jobj [("table", Json.jobj
    ([("headers", headers), ("content", content)] ++
      (match st.title with
       | some ti => [("title", Json.jstr ti)]
       | none => [])))]

/-- The data `ReportOutputTable.to_text` feeds to the external
`prettytable` library after sorting: the visible column labels, the
(limited) rows as lists of visible `get_value` cells, and the title.
The ASCII grid drawn from this data by `prettytable` is outside the
repository. -/
def to_text_data {Row : Type} (t : ReportOutputTable Row) :
    List String × List (List String) × Option String :=
  let st := t.sort_rows
  let labels := (st.columns.filter (fun c => c.visible)).map (fun c => c.label)
  let rows := (applyLimit st.limit st.rows).map
    (fun row => (st.columns.filter (fun c => c.visible)).map
      (fun c => c.get_value row))
  (labels, rows, st.title)

end ReportOutputTable

/-- Modelled from the spec: `gerrymander.format.format_title` is not under
`src/`; the spec only says the optional title becomes a "title banner
line", so the missing presentation helper is modelled as the title text
itself. -/
def format_title (s : String) : String := s

/-- Python `"%Ns" % s`: right-justify `s` in a field of `w` spaces. -/
def rjust (s : String) (w : Nat) : String :=
  String.mk (List.replicate (w - s.length) ' ') ++ s

/-- `ReportOutputList.__init__` plus `set_row`: the column list, the
single row, and the optional title. -/
structure ReportOutputList (Row : Type) where
  columns : List (ReportOutputColumn Row)
  row : Row
  title : Option String

namespace ReportOutputList

/-- The label-width computation of `ReportOutputList.to_text`: starting
from `1`, take each visible column label length that exceeds the running
width. -/
def width {Row : Type} (l : ReportOutputList Row) : Nat :=
  l.columns.foldl
    (fun w c => if c.visible then (if c.label.length > w then c.label.length else w) else w)
    1

/-- The line-building loop of `ReportOutputList.to_text`, kept faithful
to the source indentation bug: `line` is assigned only under
`if col.visible:`, but `lines.append(line)` runs for every column.  The
`Option String` argument is the current value of the Python local
`line` (`none` = not yet bound); appending while it is unbound raises
`NameError`. -/
def list_lines {Row : Type} (w : Nat) (row : Row) :
    List (ReportOutputColumn Row) → Option String → Except String (List String)
  | [], _ => Except.ok []
  | col :: rest, last =>
    let cur := if col.visible
      then some ("  " ++ rjust col.label w ++ ": " ++ col.get_value row)
      else last
    match cur with
    | none => Except.error "NameError"
    | some l => (list_lines w row rest (some l)).map (fun ls => l :: ls)

/-- `ReportOutputList.to_text`: compute the label width, run the
line-building loop (which raises `NameError` when the first column is
hidden), then prepend the optional title banner and join the lines. -/
def to_text {Row : Type} (l : ReportOutputList Row) : Except String String :=
  match list_lines l.width l.row l.columns none with
  | Except.error e => Except.error e
  | Except.ok lines =>
    let prolog := match l.title with
      | some ti => format_title ti ++ "\n"
      | none => ""
    Except.ok (prolog ++ String.intercalate "\n" lines ++ "\n")

/-- `ReportOutputList.to_json`: `{"list": {"headers": {key: label, ...},
"content": {key: value, ...}, "title"?: ...}}`, visible columns only, in
declaration order. -/
def to_json {Row : Type} (l : ReportOutputList Row) : Json :=
  let headers := Json.jobj
    ((l.columns.filter (fun c => c.visible)).map (fun c => (c.key, Json.jstr c.label)))
  let content := Json.jobj
    ((l.columns.filter (fun c => c.visible)).map
      (fun c => (c.key, Json.jstr (c.get_value l.row))))
  Json.jobj [("list", Json.jobj
    ([("headers", headers), ("content", content)] ++
      (match l.title with
       | some ti => [("title", Json.jstr ti)]
       | none => [])))]

/-- `ReportOutputList.to_xml`: the `list` element appended to the root —
optional `title` element, a `headers` element and a `content` element,
each with one child per visible column. -/
def to_xml {Row : Type} (l : ReportOutputList Row) : XmlNode :=
  let headers := XmlNode.elem "headers"
    ((l.columns.filter (fun c => c.visible)).map
      (fun c => XmlNode.elem c.key [XmlNode.text c.label]))
  let content := XmlNode.elem "content"
    ((l.columns.filter (fun c => c.visible)).map
      (fun c => XmlNode.elem c.key [XmlNode.text (c.get_value l.row)]))
  XmlNode.elem "list"
    ((match l.title with
      | some ti => [XmlNode.elem "title" [XmlNode.text ti]]
      | none => []) ++ [headers, content])

end ReportOutputList

/-- `ReportTable.__init__` state: the column set and the mutable `sort`,
`reverse` and `limit` configuration.  The `client` collaborator only
feeds query execution, which the spec treats as external, so it is not
part of the embedded state. -/
structure ReportTable (Row : Type) where
  columns : List (ReportOutputColumn Row)
  sort : Option String
  reverse : Bool
  limit : Option Nat

/-- Python rendering of an optional sort key in the
`"Unknown sort column %s" % key` message (`None` prints as `None`). -/
def optKeyStr : Option String → String
  | none => "None"
  | some s => s

namespace ReportTable

/-- `ReportTable.set_sort_column`: scan the columns for one whose key
equals the requested key; raise `Exception("Unknown sort column %s" %
key)` when none matches, otherwise store the key and the `reverse`
flag. -/
def set_sort_column {Row : Type} (t : ReportTable Row) (key : Option String)
    (rev : Bool) : Except String (ReportTable Row) :=
  let got := t.columns.foldl (fun acc col => if some col.key = key then true else acc) false
  if got = false then
    Except.error ("Unknown sort column " ++ optKeyStr key)
  else
    Except.ok { t with sort := key, reverse := rev }

/-- `ReportTable.__init__`: record the columns, initialise `limit` to
`None`, and immediately call `set_sort_column` with the given `sort`
(default `None` in the source) and `reverse` — so construction fails
with the unknown-sort-column exception whenever the key matches no
column, before any query is run or output rendered. -/
def init {Row : Type} (columns : List (ReportOutputColumn Row))
    (sort : Option String) (rev : Bool) : Except String (ReportTable Row) :=
  set_sort_column { columns := columns, sort := none, reverse := false, limit := none } sort rev

/-- `ReportTable.new_table`: build an empty output table carrying the
report's columns, sort key, reverse flag and limit. -/
def new_table {Row : Type} (t : ReportTable Row) (title : Option String) :
    ReportOutputTable Row :=
  { columns := t.columns, rows := [], sortcol := t.sort,
    reverse := t.reverse, limit := t.limit, title := title }

end ReportTable

namespace XmlNode

/-- Tag of an element node (text nodes have no tag). -/
def tag : XmlNode → String
  | .elem t _ => t
  | .text _ => ""

/-- Children of an element node. -/
def children : XmlNode → List XmlNode
  | .elem _ cs => cs
  | .text _ => []

/-- First child element with the given tag. -/
def findChild (x : XmlNode) (t : String) : Option XmlNode :=
  x.children.find? (fun c => c.tag == t)

/-- Read an element of the shape `<key>value</key>` as a (key, value)
pair. -/
def pairOf : XmlNode → String × String
  | .elem k [.text v] => (k, v)
  | _ => ("", "")

end XmlNode

/-- The (column key, header label) pairs of a rendered `table` element,
in document order. -/
def xml_table_headers (x : XmlNode) : List (String × String) :=
  match x.findChild "headers" with
  | some h => h.children.map XmlNode.pairOf
  | none => []

/-- The rendered rows of a `table` element: for each `row` child of
`content`, the (column key, cell value) pairs in document order. -/
def xml_table_rows (x : XmlNode) : List (List (String × String)) :=
  match x.findChild "content" with
  | some c => c.children.map (fun r => r.children.map XmlNode.pairOf)
  | none => []

/-- The title text of a rendered `table` element, when present. -/
def xml_table_title (x : XmlNode) : Option String :=
  match x.findChild "title" with
  | some t =>
    match t.children with
    | [.text s] => some s
    | _ => none
  | none => none

namespace Json

/-- Field lookup in an object node (first binding wins, as in a Python
dict built by insertion). -/
def field (j : Json) (k : String) : Option Json :=
  match j with
  | .jobj fs => (fs.find? (fun p => p.1 == k)).map (fun p => p.2)
  | _ => none

/-- The string carried by a string node (empty otherwise). -/
def asStr : Json → String
  | .jstr s => s
  | _ => ""

end Json

/-- The (column key, header label) pairs of a rendered `{"table": ...}`
node, in insertion order. -/
def json_table_headers (j : Json) : List (String × String) :=
  match (j.field "table").bind (fun t => t.field "headers") with
  | some (.jobj fs) => fs.map (fun p => (p.1, p.2.asStr))
  | _ => []

/-- The rendered rows of a `{"table": ...}` node: for each object in
`content`, the (column key, cell value) pairs in insertion order. -/
def json_table_rows (j : Json) : List (List (String × String)) :=
  match (j.field "table").bind (fun t => t.field "content") with
  | some (.jarr xs) =>
    xs.map (fun r =>
      match r with
      | .jobj fs => fs.map (fun p => (p.1, p.2.asStr))
      | _ => [])
  | _ => []

/-- The title of a rendered `{"table": ...}` node, when present. -/
def json_table_title (j : Json) : Option String :=
  match (j.field "table").bind (fun t => t.field "title") with
  | some (.jstr s) => some s
  | _ => none

/-- A concrete numeric column like the vote-count columns of
`ReportPatchReviewStats.COLUMNS`, used for the spec's concrete sorting
and construction examples. -/
def demoIntCol : ReportOutputColumn Int :=
  { key := "count", label := "Count", mapfunc := fun _ r => PyVal.vint r,
    sortfunc := none, format := none, truncate := 0,
    align := "r", visible := true }

/-- A concrete output table with counts `[3, 5, 1]` sorted descending on
the `count` column (the spec's sorting example). -/
def demoTable : ReportOutputTable Int :=
  { columns := [demoIntCol], rows := [3, 5, 1], sortcol := some "count",
    reverse := true, limit := none, title := none }

/-- A concrete output table whose `sortcol` matches no column key. -/
def demoTableNoSort : ReportOutputTable Int :=
  { columns := [demoIntCol], rows := [3, 5, 1], sortcol := some "missing",
    reverse := true, limit := none, title := none }

/-- A visible concrete column over a unit row. -/
def colVisibleA : ReportOutputColumn Unit :=
  { key := "a", label := "A", mapfunc := fun _ _ => PyVal.vstr "va",
    sortfunc := none, format := none, truncate := 0,
    align := "l", visible := true }

/-- A hidden concrete column over a unit row. -/
def colHiddenB : ReportOutputColumn Unit :=
  { key := "b", label := "B", mapfunc := fun _ _ => PyVal.vstr "vb",
    sortfunc := none, format := none, truncate := 0,
    align := "l", visible := false }

/-- A list output whose second column is hidden. -/
def listAB : ReportOutputList Unit :=
  { columns := [colVisibleA, colHiddenB], row := (), title := none }

/-- A list output whose first column is hidden. -/
def listBA : ReportOutputList Unit :=
  { columns := [colHiddenB, colVisibleA], row := (), title := none }

/-- A concrete column with `truncate=30` whose raw value is the 40-character
string `"0123456789012345678901234567890123456789"` (the spec's truncation
example, mirroring the `subject` column of `ReportBaseChange.COLUMNS`). -/
def truncDemoCol : ReportOutputColumn Unit :=
  { key := "subject", label := "Subject",
    mapfunc := fun _ _ => PyVal.vstr "0123456789012345678901234567890123456789",
    sortfunc := none, format := none, truncate := 30,
    align := "l", visible := true }

/-- The pre-truncation string computed by `get_value`: the `format`
template applied to the raw `mapfunc` value when one is set, else the
`None`-to-empty-string substitution followed by `str` coercion. -/
def formattedVal {Row : Type} (col : ReportOutputColumn Row) (row : Row) : String :=
  match col.format with
  | some f => f (col.mapfunc col.key row)
  | none =>
    match col.mapfunc col.key row with
    | .vnone => ""
    | v => pyStr v

namespace ReportOutputTable

theorem sort_rows_columns {Row : Type} (t : ReportOutputTable Row) :
    t.sort_rows.columns = t.columns := by
  unfold sort_rows
  cases t.find_sortcol <;> rfl

theorem sort_rows_title {Row : Type} (t : ReportOutputTable Row) :
    t.sort_rows.title = t.title := by
  unfold sort_rows
  cases t.find_sortcol <;> rfl

theorem sort_rows_limit {Row : Type} (t : ReportOutputTable Row) :
    t.sort_rows.limit = t.limit := by
  unfold sort_rows
  cases t.find_sortcol <;> rfl

theorem sort_rows_rows_of_none {Row : Type} (t : ReportOutputTable Row)
    (h : t.find_sortcol = none) : t.sort_rows = t := by
  unfold sort_rows
  rw [h]

theorem sort_rows_rows_of_some {Row : Type} (t : ReportOutputTable Row)
    (col : ReportOutputColumn Row) (h : t.find_sortcol = some col) :
    t.sort_rows.rows = t.rows.mergeSort (rowRel col t.reverse) := by
  unfold sort_rows
  rw [h]

end ReportOutputTable

theorem pyLe_total (a b : PyVal) : pyLe a b || pyLe b a := by
  cases a <;> cases b <;>
    simp only [pyLe, PyVal.rank, Bool.or_eq_true, decide_eq_true_eq] <;>
    first
      | omega
      | exact Int.le_total _ _
      | exact le_total _ _

theorem pyLe_trans (a b c : PyVal) (hab : pyLe a b) (hbc : pyLe b c) :
    pyLe a c := by
  cases a <;> cases b <;> cases c <;>
    simp only [pyLe, PyVal.rank, decide_eq_true_eq] at hab hbc ⊢ <;>
    first
      | omega
      | exact le_trans hab hbc

theorem rowRel_total {Row : Type} (col : ReportOutputColumn Row) (rev : Bool)
    (a b : Row) : ReportOutputTable.rowRel col rev a b || ReportOutputTable.rowRel col rev b a := by
  unfold ReportOutputTable.rowRel
  cases rev
  · simpa using pyLe_total (col.get_sort_value a) (col.get_sort_value b)
  · simpa using pyLe_total (col.get_sort_value b) (col.get_sort_value a)

theorem rowRel_trans {Row : Type} (col : ReportOutputColumn Row) (rev : Bool)
    (a b c : Row) (hab : ReportOutputTable.rowRel col rev a b)
    (hbc : ReportOutputTable.rowRel col rev b c) :
    ReportOutputTable.rowRel col rev a c := by
  unfold ReportOutputTable.rowRel at hab hbc ⊢
  cases rev
  · simp only [Bool.false_eq_true, if_false] at hab hbc ⊢
    exact pyLe_trans _ _ _ hab hbc
  · simp only [if_true] at hab hbc ⊢
    exact pyLe_trans _ _ _ hbc hab

theorem foldl_sortcol_none {Row : Type} (key : Option String) :
    ∀ (cols : List (ReportOutputColumn Row)) (acc : Option (ReportOutputColumn Row)),
      (∀ col ∈ cols, some col.key ≠ key) →
      cols.foldl (fun acc col => if some col.key = key then some col else acc) acc = acc := by
  intro cols
  induction cols with
  | nil => intro acc _; rfl
  | cons c rest ih =>
    intro acc h
    simp only [List.foldl_cons]
    rw [if_neg (h c (List.mem_cons_self c rest))]
    exact ih acc (fun col hc => h col (List.mem_cons_of_mem c hc))

theorem foldl_got_eq {Row : Type} (key : Option String) :
    ∀ (cols : List (ReportOutputColumn Row)) (b : Bool),
      cols.foldl (fun acc col => if some col.key = key then true else acc) b
        = (b || cols.any (fun col => decide (some col.key = key))) := by
  intro cols
  induction cols with
  | nil => intro b; simp
  | cons c rest ih =>
    intro b
    simp only [List.foldl_cons, List.any_cons]
    by_cases h : some c.key = key
    · rw [if_pos h, ih]
      simp [h]
    · rw [if_neg h, ih]
      simp [h]

theorem json_table_headers_spec {Row : Type} (t : ReportOutputTable Row) :
    json_table_headers t.to_json =
      (t.columns.filter (fun c => c.visible)).map (fun c => (c.key, c.label)) := by
  unfold json_table_headers ReportOutputTable.to_json
  cases h : t.sort_rows.title <;>
    simp [h, Json.field, Json.asStr, List.map_map, Function.comp,
      ReportOutputTable.sort_rows_columns]

theorem json_table_rows_spec {Row : Type} (t : ReportOutputTable Row) :
    json_table_rows t.to_json =
      (ReportOutputTable.applyLimit t.limit t.sort_rows.rows).map
        (fun row => (t.columns.filter (fun c => c.visible)).map
          (fun c => (c.key, c.get_value row))) := by
  unfold json_table_rows ReportOutputTable.to_json
  cases h : t.sort_rows.title <;>
    simp [h, Json.field, Json.asStr, List.map_map, Function.comp,
      ReportOutputTable.sort_rows_columns, ReportOutputTable.sort_rows_limit]

theorem json_table_title_spec {Row : Type} (t : ReportOutputTable Row) :
    json_table_title t.to_json = t.title := by
  unfold json_table_title ReportOutputTable.to_json
  rw [← ReportOutputTable.sort_rows_title t]
  cases h : t.sort_rows.title <;> simp [h, Json.field]

theorem xml_table_headers_spec {Row : Type} (t : ReportOutputTable Row) :
    xml_table_headers t.to_xml =
      (t.columns.filter (fun c => c.visible)).map (fun c => (c.key, c.label)) := by
  unfold xml_table_headers ReportOutputTable.to_xml
  cases h : t.sort_rows.title <;>
    simp [h, XmlNode.findChild, XmlNode.children, XmlNode.tag, XmlNode.pairOf,
      List.map_map, Function.comp, ReportOutputTable.sort_rows_columns]

theorem xml_table_rows_spec {Row : Type} (t : ReportOutputTable Row) :
    xml_table_rows t.to_xml =
      (ReportOutputTable.applyLimit t.limit t.sort_rows.rows).map
        (fun row => (t.columns.filter (fun c => c.visible)).map
          (fun c => (c.key, c.get_value row))) := by
  unfold xml_table_rows ReportOutputTable.to_xml
  cases h : t.sort_rows.title <;>
    simp [h, XmlNode.findChild, XmlNode.children, XmlNode.tag, XmlNode.pairOf,
      List.map_map, Function.comp, ReportOutputTable.sort_rows_columns,
      ReportOutputTable.sort_rows_limit]

theorem xml_table_title_spec {Row : Type} (t : ReportOutputTable Row) :
    xml_table_title t.to_xml = t.title := by
  unfold xml_table_title ReportOutputTable.to_xml
  rw [← ReportOutputTable.sort_rows_title t]
  cases h : t.sort_rows.title <;>
    simp [h, XmlNode.findChild, XmlNode.children, XmlNode.tag]

theorem to_text_data_rows_spec {Row : Type} (t : ReportOutputTable Row) :
    t.to_text_data.2.1 =
      (ReportOutputTable.applyLimit t.limit t.sort_rows.rows).map
        (fun row => (t.columns.filter (fun c => c.visible)).map
          (fun c => c.get_value row)) := by
  unfold ReportOutputTable.to_text_data
  simp [ReportOutputTable.sort_rows_columns, ReportOutputTable.sort_rows_limit]

/-- C1: the claim says that on a reviewer row whose four vote counts
(`flag-p2`, `flag-p1`, `flag-m1`, `flag-m2`) are all zero,
`ratio_mapfunc` does not raise a division error and returns a fallback
value.  The source computes `plus / (plus + minus)` with no guard, so on
such a row Python evaluates `0.0 / 0.0` and raises `ZeroDivisionError`:
the evaluation lands in the error branch for every user, team and total
count. -/
theorem ratio_mapfunc_zero_votes_raises (user team : String) (total : Nat) :
    ratio_mapfunc (user, ⟨⟨0, 0, 0, 0⟩, total⟩, team) =
      Except.error "ZeroDivisionError" := by
  unfold ratio_mapfunc
  norm_num

/-- C2: for every non-empty bucket and age map, `median_age` returns the
element at index `floor(n/2)` of an ascending-sorted rearrangement of the
bucket's ages; over ages `[10, 20, 30, 40]` it returns `30`, the
upper-middle element, not the arithmetic median `25`. -/
theorem median_age_upper_middle :
    (∀ (changes : List Nat) (ages : Nat → Nat), changes ≠ [] →
      ∃ l : List Nat, List.Sorted (· ≤ ·) l ∧ l.Perm (changes.map ages) ∧
        median_age changes ages = l.getD (changes.length / 2) 0) ∧
    median_age [0, 1, 2, 3] (fun i => 10 * (i + 1)) = 30 := by
  constructor
  · intro changes ages h
    have hlen : changes.length ≠ 0 := by simpa [List.length_eq_zero] using h
    have htrans : ∀ (a b c : Nat),
        decide (a ≤ b) = true → decide (b ≤ c) = true → decide (a ≤ c) = true := by
      intro a b c hab hbc
      simp only [decide_eq_true_eq] at hab hbc ⊢
      omega
    have htotal : ∀ (a b : Nat), (decide (a ≤ b) || decide (b ≤ a)) = true := by
      intro a b
      simpa using Nat.le_total a b
    refine ⟨(changes.map ages).mergeSort (fun a b => decide (a ≤ b)), ?_,
      List.mergeSort_perm _ _, ?_⟩
    · exact (List.sorted_mergeSort htrans htotal (changes.map ages)).imp
        (fun hab => by simpa using hab)
    · unfold median_age format_delta
      rw [if_neg hlen]
      simp
  · unfold median_age format_delta
    rw [if_neg (by decide)]
    rw [show ([0, 1, 2, 3] : List Nat).map (fun i => 10 * (i + 1)) = [10, 20, 30, 40] from rfl]
    rw [List.mergeSort_of_sorted (by decide)]
    rfl

theorem median_age_upper_middle_witness :
    ∃ l : List Nat, List.Sorted (· ≤ ·) l ∧ l.Perm ([5, 1].map id) ∧
      median_age [5, 1] id = l.getD 1 0 :=
  median_age_upper_middle.1 [5, 1] id (by decide)

/-- C7: the claim says every rendering shows exactly the visible columns
and a hidden column never contributes to the output.  In
`ReportOutputList.to_text` the `lines.append(line)` statement sits
outside the `if col.visible:` guard, so a hidden column appends a copy
of the previous visible column's line (here the output shows the single
visible column twice), and when the first column is hidden the local
`line` is still unbound and the rendering dies with `NameError`. -/
theorem list_to_text_hidden_column_bug :
    listAB.to_text = Except.ok "  A: va\n  A: va\n" ∧
    listBA.to_text = Except.error "NameError" :=
  ⟨rfl, rfl⟩

/-- C9: `get_sort_value` is the `sortfunc` applied to the row when one is
present and the raw `mapfunc` value otherwise, and it is independent of
the column's `format` template and `truncate` setting, so sort keys are
never the rendered text. -/
theorem get_sort_value_raw {Row : Type} (col : ReportOutputColumn Row) (row : Row) :
    (∀ f, col.sortfunc = some f → col.get_sort_value row = f col.key row) ∧
    (col.sortfunc = none → col.get_sort_value row = col.mapfunc col.key row) ∧
    (∀ (fmt : Option (PyVal → String)) (tr : Nat),
      ReportOutputColumn.get_sort_value { col with format := fmt, truncate := tr } row
        = col.get_sort_value row) := by
  refine ⟨?_, ?_, ?_⟩
  · intro f hf
    unfold ReportOutputColumn.get_sort_value
    rw [hf]
  · intro hf
    unfold ReportOutputColumn.get_sort_value
    rw [hf]
  · intro fmt tr
    unfold ReportOutputColumn.get_sort_value
    rfl

theorem get_sort_value_raw_witness :
    truncDemoCol.get_sort_value () = truncDemoCol.mapfunc truncDemoCol.key () :=
  (get_sort_value_raw truncDemoCol ()).2.1 rfl

/-- C10: `ReportTable.__init__` forwards its `sort` argument (default
`None`) to `set_sort_column`, whose scan `col.key == key` can never match
`None` against a string column key, so constructing a `ReportTable`
without an explicit sort raises the unknown-sort-column exception, and a
construction that succeeds did name the key of one of its columns. -/
theorem default_sort_none_rejected :
    (∀ (Row : Type) (columns : List (ReportOutputColumn Row)) (rev : Bool),
      ReportTable.init columns none rev =
        Except.error "Unknown sort column None") ∧
    (∀ (Row : Type) (columns : List (ReportOutputColumn Row)) (key : Option String)
      (rev : Bool) (t : ReportTable Row),
      ReportTable.init columns key rev = Except.ok t →
        ∃ col ∈ columns, some col.key = key) := by
  constructor
  · intro Row columns rev
    simp only [ReportTable.init, ReportTable.set_sort_column]
    rw [foldl_got_eq]
    have hany : columns.any (fun col => decide (some col.key = none)) = false := by
      simp
    rw [hany]
    rfl
  · intro Row columns key rev t h
    simp only [ReportTable.init, ReportTable.set_sort_column] at h
    rw [foldl_got_eq] at h
    by_cases hany : columns.any (fun col => decide (some col.key = key)) = true
    · obtain ⟨col, hmem, hcol⟩ := List.any_eq_true.mp hany
      exact ⟨col, hmem, by simpa using hcol⟩
    · rw [Bool.not_eq_true] at hany
      rw [hany] at h
      simp at h

theorem default_sort_none_rejected_witness :
    ∃ col ∈ [demoIntCol], some col.key = some "count" :=
  default_sort_none_rejected.2 Int [demoIntCol] (some "count") false
    { columns := [demoIntCol], sort := some "count", reverse := false, limit := none }
    rfl

set_option maxRecDepth 8000 in
/-- C3: `get_value` always returns a string (by its type in this
embedding): the `format` template is applied to the raw value when set,
else `None` becomes the empty string and non-strings are `str`-coerced
(`formattedVal`); when `truncate = t > 0` and the formatted value is
longer than `t`, the result is its first `t` characters plus the
3-character `"..."` marker, of total length `t + 3` — so the concrete
40-character value truncated to 30 yields the 33-character string
`"012345678901234567890123456789..."`. -/
theorem get_value_format_truncate {Row : Type} (col : ReportOutputColumn Row) (row : Row) :
    ((col.truncate = 0 ∨ (formattedVal col row).length ≤ col.truncate) →
      col.get_value row = formattedVal col row) ∧
    (col.truncate ≠ 0 → col.truncate < (formattedVal col row).length →
      col.get_value row = (formattedVal col row).take col.truncate ++ "..." ∧
      (col.get_value row).length = col.truncate + 3) ∧
    (truncDemoCol.get_value () = "012345678901234567890123456789..." ∧
      (truncDemoCol.get_value ()).length = 33) := by
  have hv : col.get_value row =
      (if col.truncate ≠ 0 ∧ col.truncate < (formattedVal col row).length
        then (formattedVal col row).take col.truncate ++ "..."
        else formattedVal col row) := rfl
  refine ⟨?_, ?_, rfl, rfl⟩
  · intro h
    rw [hv, if_neg]
    rintro ⟨h1, h2⟩
    rcases h with h | h
    · exact h1 h
    · omega
  · intro h1 h2
    have htake : ((formattedVal col row).take col.truncate).length = col.truncate := by
      rw [String.take_eq]
      show ((formattedVal col row).data.take col.truncate).length = _
      rw [List.length_take]
      have : (formattedVal col row).data.length = (formattedVal col row).length := rfl
      omega
    rw [hv, if_pos ⟨h1, h2⟩]
    refine ⟨rfl, ?_⟩
    rw [String.length_append, htake]
    rfl

theorem get_value_format_truncate_witness :
    truncDemoCol.get_value () =
      (formattedVal truncDemoCol ()).take truncDemoCol.truncate ++ "..." ∧
    (truncDemoCol.get_value ()).length = truncDemoCol.truncate + 3 :=
  (get_value_format_truncate truncDemoCol ()).2.1 (by decide) (by decide)

/-- C5: both `set_sort_column` and the `ReportTable` constructor (which
calls it before anything else — no query is executed and no output object
exists yet) reject a sort key that matches no column key with the
`Unknown sort column` exception. -/
theorem unknown_sort_column_fails_fast {Row : Type} (t : ReportTable Row)
    (key : Option String) (rev : Bool)
    (h : ∀ col ∈ t.columns, some col.key ≠ key) :
    t.set_sort_column key rev =
      Except.error ("Unknown sort column " ++ optKeyStr key) ∧
    ReportTable.init t.columns key rev =
      Except.error ("Unknown sort column " ++ optKeyStr key) := by
  have hany : t.columns.any (fun col => decide (some col.key = key)) = false := by
    rw [List.any_eq_false]
    intro col hc
    simpa using h col hc
  constructor
  · simp only [ReportTable.set_sort_column]
    rw [foldl_got_eq, hany]
    rfl
  · simp only [ReportTable.init, ReportTable.set_sort_column]
    rw [foldl_got_eq, hany]
    rfl

theorem unknown_sort_column_fails_fast_witness :
    ReportTable.set_sort_column
        { columns := [demoIntCol], sort := none, reverse := false, limit := none }
        (some "missing") false =
      Except.error ("Unknown sort column " ++ optKeyStr (some "missing")) ∧
    ReportTable.init [demoIntCol] (some "missing") false =
      Except.error ("Unknown sort column " ++ optKeyStr (some "missing")) :=
  unknown_sort_column_fails_fast
    { columns := [demoIntCol], sort := none, reverse := false, limit := none }
    (some "missing") false
    (by
      intro col hc
      rw [List.mem_singleton] at hc
      subst hc
      decide)

/-- C6: when the table's `sortcol` matches no column at render time,
`sort_rows` finds no sort column and leaves the rows untouched — no
exception — and all three renderings present the rows in insertion
order (after the `limit` slice). -/
theorem render_skips_unknown_sortcol {Row : Type} (t : ReportOutputTable Row)
    (h : ∀ col ∈ t.columns, some col.key ≠ t.sortcol) :
    t.sort_rows = t ∧
    json_table_rows t.to_json =
      (ReportOutputTable.applyLimit t.limit t.rows).map
        (fun row => (t.columns.filter (fun c => c.visible)).map
          (fun c => (c.key, c.get_value row))) ∧
    xml_table_rows t.to_xml =
      (ReportOutputTable.applyLimit t.limit t.rows).map
        (fun row => (t.columns.filter (fun c => c.visible)).map
          (fun c => (c.key, c.get_value row))) ∧
    t.to_text_data.2.1 =
      (ReportOutputTable.applyLimit t.limit t.rows).map
        (fun row => (t.columns.filter (fun c => c.visible)).map
          (fun c => c.get_value row)) := by
  have hfind : t.find_sortcol = none := by
    unfold ReportOutputTable.find_sortcol
    exact foldl_sortcol_none t.sortcol t.columns none h
  have hsr : t.sort_rows = t := ReportOutputTable.sort_rows_rows_of_none t hfind
  refine ⟨hsr, ?_, ?_, ?_⟩
  · rw [json_table_rows_spec, hsr]
  · rw [xml_table_rows_spec, hsr]
  · rw [to_text_data_rows_spec, hsr]

theorem render_skips_unknown_sortcol_witness :
    demoTableNoSort.sort_rows = demoTableNoSort ∧
    json_table_rows demoTableNoSort.to_json =
      (ReportOutputTable.applyLimit demoTableNoSort.limit demoTableNoSort.rows).map
        (fun row => (demoTableNoSort.columns.filter (fun c => c.visible)).map
          (fun c => (c.key, c.get_value row))) ∧
    xml_table_rows demoTableNoSort.to_xml =
      (ReportOutputTable.applyLimit demoTableNoSort.limit demoTableNoSort.rows).map
        (fun row => (demoTableNoSort.columns.filter (fun c => c.visible)).map
          (fun c => (c.key, c.get_value row))) ∧
    demoTableNoSort.to_text_data.2.1 =
      (ReportOutputTable.applyLimit demoTableNoSort.limit demoTableNoSort.rows).map
        (fun row => (demoTableNoSort.columns.filter (fun c => c.visible)).map
          (fun c => c.get_value row)) :=
  render_skips_unknown_sortcol demoTableNoSort
    (by
      intro col hc
      rw [show demoTableNoSort.columns = [demoIntCol] from rfl, List.mem_singleton] at hc
      subst hc
      decide)

/-- C8: rendering the same table to the structured tree (`to_xml`) and
to the nested mapping (`to_json`) yields identical information: the same
(key, label) header pairs, the same rows in the same order with the same
(key, value) cells, and the same optional title. -/
theorem xml_json_equivalent {Row : Type} (t : ReportOutputTable Row) :
    xml_table_headers t.to_xml = json_table_headers t.to_json ∧
    xml_table_rows t.to_xml = json_table_rows t.to_json ∧
    xml_table_title t.to_xml = json_table_title t.to_json := by
  refine ⟨?_, ?_, ?_⟩
  · rw [xml_table_headers_spec, json_table_headers_spec]
  · rw [xml_table_rows_spec, json_table_rows_spec]
  · rw [xml_table_title_spec, json_table_title_spec]

/-- C4: when the table's `sortcol` resolves to a column, every rendering
first stable-sorts the rows by that column's sort value — the rendered
sequence is a permutation of the rows, pairwise ordered by the sort
relation (descending exactly when `reverse` is set), and any two rows
already in relation keep their relative order (stability) — and the
`limit` slice is applied only to the sorted sequence; concretely,
counts `[3, 5, 1]` sorted descending render as `[5, 3, 1]`. -/
theorem table_sort_then_limit {Row : Type} (t : ReportOutputTable Row)
    (col : ReportOutputColumn Row) (h : t.find_sortcol = some col) :
    ((t.rows.mergeSort (ReportOutputTable.rowRel col t.reverse)).Perm t.rows ∧
     List.Pairwise (fun a b => ReportOutputTable.rowRel col t.reverse a b = true)
       (t.rows.mergeSort (ReportOutputTable.rowRel col t.reverse)) ∧
     (∀ a b : Row, [a, b].Sublist t.rows →
       ReportOutputTable.rowRel col t.reverse a b = true →
       [a, b].Sublist (t.rows.mergeSort (ReportOutputTable.rowRel col t.reverse))) ∧
     json_table_rows t.to_json =
       (ReportOutputTable.applyLimit t.limit
         (t.rows.mergeSort (ReportOutputTable.rowRel col t.reverse))).map
         (fun row => (t.columns.filter (fun c => c.visible)).map
           (fun c => (c.key, c.get_value row))) ∧
     xml_table_rows t.to_xml =
       (ReportOutputTable.applyLimit t.limit
         (t.rows.mergeSort (ReportOutputTable.rowRel col t.reverse))).map
         (fun row => (t.columns.filter (fun c => c.visible)).map
           (fun c => (c.key, c.get_value row))) ∧
     t.to_text_data.2.1 =
       (ReportOutputTable.applyLimit t.limit
         (t.rows.mergeSort (ReportOutputTable.rowRel col t.reverse))).map
         (fun row => (t.columns.filter (fun c => c.visible)).map
           (fun c => c.get_value row))) ∧
    demoTable.sort_rows.rows = [5, 3, 1] := by
  have hdemo : demoTable.sort_rows.rows = [5, 3, 1] := by
    rw [ReportOutputTable.sort_rows_rows_of_some demoTable demoIntCol rfl]
    simp [demoTable, List.mergeSort, ReportOutputTable.rowRel,
      ReportOutputColumn.get_sort_value, demoIntCol, pyLe]
  have hsr := ReportOutputTable.sort_rows_rows_of_some t col h
  refine ⟨⟨List.mergeSort_perm _ _, ?_, ?_, ?_, ?_, ?_⟩, hdemo⟩
  · exact List.sorted_mergeSort (rowRel_trans col t.reverse) (rowRel_total col t.reverse)
      t.rows
  · intro a b hsub hab
    exact List.pair_sublist_mergeSort (rowRel_trans col t.reverse)
      (rowRel_total col t.reverse) hab hsub
  · rw [json_table_rows_spec, hsr]
  · rw [xml_table_rows_spec, hsr]
  · rw [to_text_data_rows_spec, hsr]

theorem table_sort_then_limit_witness :
    ((demoTable.rows.mergeSort
        (ReportOutputTable.rowRel demoIntCol demoTable.reverse)).Perm demoTable.rows ∧
     List.Pairwise
       (fun a b => ReportOutputTable.rowRel demoIntCol demoTable.reverse a b = true)
       (demoTable.rows.mergeSort (ReportOutputTable.rowRel demoIntCol demoTable.reverse)) ∧
     (∀ a b : Int, [a, b].Sublist demoTable.rows →
       ReportOutputTable.rowRel demoIntCol demoTable.reverse a b = true →
       [a, b].Sublist
         (demoTable.rows.mergeSort (ReportOutputTable.rowRel demoIntCol demoTable.reverse))) ∧
     json_table_rows demoTable.to_json =
       (ReportOutputTable.applyLimit demoTable.limit
         (demoTable.rows.mergeSort (ReportOutputTable.rowRel demoIntCol demoTable.reverse))).map
         (fun row => (demoTable.columns.filter (fun c => c.visible)).map
           (fun c => (c.key, c.get_value row))) ∧
     xml_table_rows demoTable.to_xml =
       (ReportOutputTable.applyLimit demoTable.limit
         (demoTable.rows.mergeSort (ReportOutputTable.rowRel demoIntCol demoTable.reverse))).map
         (fun row => (demoTable.columns.filter (fun c => c.visible)).map
           (fun c => (c.key, c.get_value row))) ∧
     demoTable.to_text_data.2.1 =
       (ReportOutputTable.applyLimit demoTable.limit
         (demoTable.rows.mergeSort (ReportOutputTable.rowRel demoIntCol demoTable.reverse))).map
         (fun row => (demoTable.columns.filter (fun c => c.visible)).map
           (fun c => c.get_value row))) ∧
    demoTable.sort_rows.rows = [5, 3, 1] :=
  table_sort_then_limit demoTable demoIntCol rfl

end Gerrymander
